import Mathlib

/-!
Shallow embedding of the Bluesky firehose ingestion pipeline
(`Bluesky_dashboard/aggregator/bsky/bsky.py`): the message processor
(parse, language filter, enrichment, document-id computation, sink write),
the worker loop, the WebSocket connection manager's retry loop, and the
bounded ingest queue.  Python dict lookups with defaults become `Option`
fields with `getD`; exceptions become explicit outcome types; the
Elasticsearch sink and the wall clock become parameters.
-/

namespace Bsky

/-- The nested `record` object of a commit: `record.get("langs", [])` reads
an optional list of language tags.  Free-form content fields play no role
in the claims and are omitted. -/
structure Record where
  langs : Option (List String)
deriving DecidableEq, Repr

/-- The `commit` object: `commit.get("rkey", "unknown")` and
`commit.get("cid", None)` read optional strings; `commit.get("record", {})`
reads the nested record. -/
structure Commit where
  rkey : Option String
  cid : Option String
  record : Option Record
deriving DecidableEq, Repr

/-- A parsed event (the JSON payload after `json.loads`): top-level
`did` (optional string, defaulted where read), `time_us` (optional integer,
microseconds since epoch) and the `commit` object. -/
structure Event where
  did : Option String
  time_us : Option Int
  commit : Option Commit
deriving DecidableEq, Repr

/-- `record.get("langs", [])` after `commit.get("record", {})`:
a missing commit, record or langs field all yield the empty list. -/
def langsOf (e : Event) : List String :=
  ((e.commit.bind Commit.record).bind Record.langs).getD []

/-- `commit.get("rkey", "unknown")`. -/
def rkeyOf (e : Event) : String :=
  (e.commit.bind Commit.rkey).getD "unknown"

/-- `data.get("did", "unknown")`. -/
def didOf (e : Event) : String :=
  e.did.getD "unknown"

/-- `MessageProcessor.is_language_allowed`: an empty filter allows
everything; otherwise some tag of `langs` must occur in the filter. -/
def is_language_allowed (language_filter : List String) (langs : List String) : Bool :=
  if language_filter.isEmpty then true
  else langs.any (fun lang => language_filter.contains lang)

/-- A UTC timestamp value as produced by `MessageProcessor.get_timestamp`:
either derived from a `time_us` value via `datetime.fromtimestamp`, or the
current wall-clock time `datetime.now(tz=timezone.utc)`. -/
inductive Timestamp where
  | fromMicros (t : Int)
  | now
deriving DecidableEq, Repr

/-- Smallest `time_us` (microseconds) that `datetime.fromtimestamp(t / 1e6,
tz=utc)` accepts: 0001-01-01T00:00:00 UTC, i.e. -62135596800 seconds. -/
def tsMinMicros : Int := -62135596800000000

/-- Largest `time_us` (microseconds) that `datetime.fromtimestamp(t / 1e6,
tz=utc)` accepts: 9999-12-31T23:59:59.999999 UTC, i.e. 253402300799.999999
seconds (rounding of the float division at the exact boundary is not split
further). -/
def tsMaxMicros : Int := 253402300799999999

/-- `MessageProcessor.get_timestamp`: `if time_us:` is Python truthiness, so
a missing `time_us` and the value `0` both fall through to the current time.
For a non-zero value, `datetime.fromtimestamp(time_us / 1e6, tz=utc)` yields
the derived timestamp when the value lies in datetime's representable range
(years 1 to 9999) and raises `ValueError` otherwise, which the
`except (ValueError, TypeError)` clause turns into the current time. -/
def get_timestamp (time_us : Option Int) : Timestamp :=
  match time_us with
  | some t =>
      if t = 0 then Timestamp.now
      else if tsMinMicros ≤ t ∧ t ≤ tsMaxMicros then Timestamp.fromMicros t
      else Timestamp.now
  | none => Timestamp.now

/-- The enriched document sent to the sink: the parsed event's fields
unchanged (`data` is mutated in place, no field is removed) plus exactly the
two derived keys `post_url` and `record_time` added by `process_message`. -/
structure EnrichedDoc where
  event : Event
  post_url : String
  record_time : Timestamp
deriving DecidableEq, Repr

/-- `MessageProcessor.process_message` up to the sink call: `none` means the
event was discarded by the language filter (plain `return`, no logging);
`some doc` means `index_data` is called on the enriched document. -/
def process_message (language_filter : List String) (data : Event) : Option EnrichedDoc :=
  let langs := langsOf data
  let rkey := rkeyOf data
  let did := didOf data
  if ¬ is_language_allowed language_filter langs then none
  else
    let timestamp := get_timestamp data.time_us
    let profile_url := "https://bsky.app/profile/" ++ did ++ "/post/" ++ rkey
    some { event := data, post_url := profile_url, record_time := timestamp }

/-- The document id computed in `MessageProcessor.index_data`:
`doc_id = data.get("commit", {}).get("cid", None)`, and `if not doc_id:`
(i.e. `cid` missing, `None` or the empty string) it falls back to
`f"{data.get('did', '')}_{data.get('time_us', '')}"`. -/
def docId (e : Event) : String :=
  let cid := (e.commit.bind Commit.cid).getD ""
  if cid = "" then
    (e.did.getD "") ++ "_" ++ ((e.time_us.map toString).getD "")
  else cid

/-- Observable effects of handling one message: successful sink writes
(document id and document), how many sink calls were attempted, and how many
error-level and info-level log lines were emitted. -/
structure Effects where
  written : List (String × EnrichedDoc)
  sinkAttempts : Nat
  errorLogs : Nat
  infoLogs : Nat
deriving DecidableEq, Repr

/-- No effects. -/
def Effects.empty : Effects :=
  { written := [], sinkAttempts := 0, errorLogs := 0, infoLogs := 0 }

/-- `MessageProcessor.index_data`: with no Elasticsearch client it logs an
error and returns; otherwise it calls `es_client.index` with the computed id
(`sinkOk` says whether that external call succeeds) and catches any
exception from it, logging an error — a failed write is dropped, never
retried and never re-raised. -/
def index_data (es_client : Bool) (sinkOk : Bool) (doc : EnrichedDoc) : Effects :=
  if ¬ es_client then
    { written := [], sinkAttempts := 0, errorLogs := 1, infoLogs := 0 }
  else if sinkOk then
    { written := [(docId doc.event, doc)], sinkAttempts := 1, errorLogs := 0, infoLogs := 1 }
  else
    { written := [], sinkAttempts := 1, errorLogs := 1, infoLogs := 0 }

/-- A raw message as pulled from the ingest queue, classified by what
happens when it is handled: `valid e` decodes to a well-formed event `e`;
`malformed` makes `json.loads` raise `JSONDecodeError`; `illtyped` decodes
but has the wrong shape (e.g. `commit` is a string), so handling raises an
exception that is not `JSONDecodeError` and escapes `handle_message`. -/
inductive RawMessage where
  | valid (e : Event)
  | malformed
  | illtyped
deriving DecidableEq, Repr

/-- `MessageProcessor.handle_message`: decodes and processes one message
under the shared lock.  `Except.error ()` is an exception escaping to the
caller (the worker); `Except.ok eff` is a normal return with effects.
`json.JSONDecodeError` is caught here and logged; any other exception
raised during processing propagates. -/
def handle_message (language_filter : List String) (es_client sinkOk : Bool) :
    RawMessage → Except Unit Effects
  | RawMessage.malformed =>
      Except.ok { written := [], sinkAttempts := 0, errorLogs := 1, infoLogs := 0 }
  | RawMessage.illtyped => Except.error ()
  | RawMessage.valid e =>
      Except.ok (match process_message language_filter e with
        | none => Effects.empty
        | some doc => index_data es_client sinkOk doc)

/-- Result of the worker's queue poll `asyncio.wait_for(queue.get(), 1.0)`:
an item, a timeout, or cancellation at shutdown. -/
inductive PollResult where
  | item (msg : RawMessage)
  | timeout
  | cancelled
deriving DecidableEq, Repr

/-- Whether one iteration of the worker loop continues looping or breaks. -/
inductive StepOutcome where
  | continueLoop
  | exitLoop
deriving DecidableEq, Repr

/-- One iteration of `MessageProcessor.worker`: a poll timeout continues the
loop; cancellation logs at info level and breaks; an item is handed to
`handle_message` inside `try ... except Exception`, so an escaping exception
is logged as an error and the loop continues (`task_done` runs either way). -/
def worker_step (language_filter : List String) (es_client sinkOk : Bool)
    (poll : PollResult) : StepOutcome × Effects :=
  match poll with
  | PollResult.timeout => (StepOutcome.continueLoop, Effects.empty)
  | PollResult.cancelled =>
      (StepOutcome.exitLoop, { written := [], sinkAttempts := 0, errorLogs := 0, infoLogs := 1 })
  | PollResult.item msg =>
      match handle_message language_filter es_client sinkOk msg with
      | Except.ok eff => (StepOutcome.continueLoop, eff)
      | Except.error _ =>
          (StepOutcome.continueLoop,
            { written := [], sinkAttempts := 0, errorLogs := 1, infoLogs := 0 })

/-- The exceptions relevant to the connection manager, plus Python's class
split: every listed error except `cancelledError` is a subclass of
`Exception`; `asyncio.CancelledError` subclasses only `BaseException`
(Python ≥ 3.8), so a bare `except Exception` does not catch it. -/
inductive PyErr where
  | timeoutError
  | connectionClosedError
  | connectionError
  | osError
  | invalidStatus
  | otherError
  | cancelledError
deriving DecidableEq, Repr

/-- Whether the error is a subclass of `Exception` (caught by
`except Exception`). -/
def isException : PyErr → Bool
  | PyErr.cancelledError => false
  | _ => true

/-- Exception behaviour of `WebSocketClient.connect_and_listen`: `outcome`
is what the underlying `websockets.connect`/receive loop does for this cycle
(`none` = connected, streamed and closed cleanly; `some e` = raised `e`).
The body is wrapped in `try ... except asyncio.TimeoutError ... except
Exception`, each handler only logging, so the call returns normally for
every `Exception`; only a `BaseException` such as `asyncio.CancelledError`
escapes.  The result is the exception escaping into `run`, if any. -/
def connect_and_listen (outcome : Option PyErr) : Option PyErr :=
  match outcome with
  | none => none
  | some e =>
      if e = PyErr.timeoutError then none
      else if isException e then none
      else some e

/-- Mutable state of `WebSocketClient.run`: the local `retry_delay` (whole
seconds) and the field `current_url_index`. -/
structure RunState where
  retry_delay : Nat
  current_url_index : Nat
deriving DecidableEq, Repr

/-- One iteration of the `while self.running` loop of `WebSocketClient.run`,
given the underlying outcome of this cycle's connect/listen.  When
`connect_and_listen` returns normally the loop sets `retry_delay = 1`; when
an exception escapes it (none of `run`'s handlers change `retry_delay`
either) the old value is kept.  The `finally` block then advances
`current_url_index` by one modulo the pool size, sleeps
`retry_delay + random.uniform(0, 1)` and doubles `retry_delay` capped at 60.
Returns the new state and the base delay slept (the actual delay is the base
plus a jitter drawn uniformly from [0, 1)). -/
def run_cycle (num_urls : Nat) (outcome : Option PyErr) (s : RunState) : RunState × Nat :=
  let afterTry : Nat :=
    match connect_and_listen outcome with
    | none => 1
    | some _ => s.retry_delay
  ({ retry_delay := min (afterTry * 2) 60,
     current_url_index := (s.current_url_index + 1) % num_urls },
   afterTry)

/-- Iterated `run_cycle`: the list of base delays slept between consecutive
cycles, and the final state. -/
def run_trace (num_urls : Nat) (outcomes : List (Option PyErr)) (s : RunState) :
    List Nat × RunState :=
  match outcomes with
  | [] => ([], s)
  | o :: os =>
      let (s', d) := run_cycle num_urls o s
      let (ds, sEnd) := run_trace num_urls os s'
      (d :: ds, sEnd)

/-- The initial state of `run`: `retry_delay = 1`, `current_url_index = 0`. -/
def initialRunState : RunState :=
  { retry_delay := 1, current_url_index := 0 }

/-- The pool size of `EXTERNAL_WS_URLS` (four jetstream endpoints). -/
def numExternalUrls : Nat := 4

/-- The ingest queue capacity fixed in `main`:
`asyncio.Queue(maxsize=100000)`. -/
def queueCapacity : Nat := 100000

/-- Modelled from the spec: the Ingest Queue (implemented in the source by
the external `asyncio.Queue`, whose code is not part of this repository) is
a bounded FIFO of fixed capacity with a blocking `put` that suspends when
the queue is full and a `get` that removes the oldest item. -/
structure IngestQueue (α : Type) where
  capacity : Nat
  items : List α
deriving DecidableEq, Repr

/-- Modelled from the spec: outcome of `put` — either the item was enqueued,
or the queue was full and the producer suspends (the item is neither dropped
nor is an error raised; the producer retries once space frees). -/
inductive PutOutcome (α : Type) where
  | enqueued (q : IngestQueue α)
  | suspended
deriving DecidableEq, Repr

/-- Modelled from the spec: blocking `put` — enqueue at the tail when below
capacity, otherwise suspend the producer. -/
def IngestQueue.put (q : IngestQueue α) (x : α) : PutOutcome α :=
  if q.items.length < q.capacity then
    PutOutcome.enqueued { capacity := q.capacity, items := q.items ++ [x] }
  else PutOutcome.suspended

/-- Modelled from the spec: `get` with timeout — the oldest item when one is
available, otherwise a timeout (the queue is unchanged). -/
def IngestQueue.get (q : IngestQueue α) : Option (α × IngestQueue α) :=
  match q.items with
  | [] => none
  | x :: xs => some (x, { capacity := q.capacity, items := xs })

/-- An operation performed on the ingest queue by the producer or a consumer. -/
inductive QOp (α : Type) where
  | put (x : α)
  | get
deriving DecidableEq, Repr

/-- Effect of one operation on the queue state: a `put` on a full queue
leaves the queue unchanged (the producer is suspended, holding its item);
a `get` on an empty queue times out and leaves it unchanged. -/
def IngestQueue.step (q : IngestQueue α) : QOp α → IngestQueue α
  | QOp.put x =>
      match q.put x with
      | PutOutcome.enqueued q' => q'
      | PutOutcome.suspended => q
  | QOp.get =>
      match q.get with
      | none => q
      | some (_, q') => q'

/-- The queue state after a sequence of operations. -/
def IngestQueue.run (q : IngestQueue α) (ops : List (QOp α)) : IngestQueue α :=
  ops.foldl IngestQueue.step q

/-- The empty ingest queue of a given capacity. -/
def emptyQueue (α : Type) (cap : Nat) : IngestQueue α :=
  { capacity := cap, items := [] }

/-- Modelled from the spec: the Document Sink's `upsert(collection, id,
document)` writes or overwrites the document stored at `id`
(last-write-wins), which is how `es_client.index(index=..., id=...,
document=...)` behaves on the external store. -/
def upsertStore (store : String → Option EnrichedDoc) (id : String) (doc : EnrichedDoc) :
    String → Option EnrichedDoc :=
  fun k => if k = id then some doc else store k

/-- The enriched document `process_message` builds for an event that passes
the language filter: the event itself plus the two derived fields. -/
def enrich (e : Event) : EnrichedDoc :=
  { event := e,
    post_url := "https://bsky.app/profile/" ++ didOf e ++ "/post/" ++ rkeyOf e,
    record_time := get_timestamp e.time_us }

/-- Sample event with `langs = ["nl"]`. -/
def evNl : Event :=
  { did := some "did:abc", time_us := some 5,
    commit := some { rkey := some "xyz", cid := some "c1",
                     record := some { langs := some ["nl"] } } }

/-- Sample event with `langs = ["en", "fr"]`, `did = "did:abc"`,
`rkey = "xyz"` (the scenario of the spec). -/
def evEnFr : Event :=
  { did := some "did:abc", time_us := some 5,
    commit := some { rkey := some "xyz", cid := some "c1",
                     record := some { langs := some ["en", "fr"] } } }

/-- Sample event whose record has no `langs` field. -/
def evNoLangs : Event :=
  { did := some "did:abc", time_us := some 5,
    commit := some { rkey := some "xyz", cid := some "c1",
                     record := some { langs := none } } }

/-- Sample event with an empty-string `cid` and `did = "did:alice"`. -/
def evEmptyCidA : Event :=
  { did := some "did:alice", time_us := some 7,
    commit := some { rkey := some "r1", cid := some "",
                     record := some { langs := some ["en"] } } }

/-- Sample event with the same empty-string `cid` but `did = "did:bob"`. -/
def evEmptyCidB : Event :=
  { did := some "did:bob", time_us := some 7,
    commit := some { rkey := some "r1", cid := some "",
                     record := some { langs := some ["en"] } } }

/-- Sample event carrying `cid = "c1"`. -/
def evCid1A : Event :=
  { did := some "did:alice", time_us := some 7,
    commit := some { rkey := some "r1", cid := some "c1",
                     record := some { langs := some ["en"] } } }

/-- A different sample event carrying the same `cid = "c1"`. -/
def evCid1B : Event :=
  { did := some "did:bob", time_us := some 9,
    commit := some { rkey := some "r2", cid := some "c1",
                     record := some { langs := some ["fr"] } } }

/-- Sample event with no `cid` and no `time_us`, `did = "did:carol"`. -/
def evSameDid1 : Event :=
  { did := some "did:carol", time_us := none,
    commit := some { rkey := some "r1", cid := none,
                     record := some { langs := some ["en"] } } }

/-- A distinct sample event (different `rkey` and `langs`) that also lacks
`cid` and `time_us` and carries the same `did = "did:carol"`. -/
def evSameDid2 : Event :=
  { did := some "did:carol", time_us := none,
    commit := some { rkey := some "r2", cid := none,
                     record := some { langs := some ["fr"] } } }

/-- A sample stored document. -/
def sampleDoc1 : EnrichedDoc :=
  { event := evSameDid1, post_url := "u1", record_time := Timestamp.now }

/-- Another sample stored document with different content. -/
def sampleDoc2 : EnrichedDoc :=
  { event := evSameDid2, post_url := "u2", record_time := Timestamp.now }

/-- A full ingest queue of capacity 2. -/
def qFull : IngestQueue Nat :=
  { capacity := 2, items := [5, 6] }

/-! ## Helper lemmas -/

/-- A non-empty allow-list with no tag of `langs` in it rejects the event. -/
theorem is_language_allowed_false_of_disjoint (f langs : List String)
    (hne : f ≠ []) (h : ∀ l ∈ langs, l ∉ f) :
    is_language_allowed f langs = false := by
  have hf : f.isEmpty = false := by
    cases f with
    | nil => exact absurd rfl hne
    | cons a t => rfl
  unfold is_language_allowed
  rw [hf]
  simp only [Bool.false_eq_true, if_false, List.any_eq_false]
  intro l hl
  simpa using h l hl

/-- An event passing the language filter is enriched and forwarded. -/
theorem process_message_eq_some (f : List String) (e : Event)
    (h : is_language_allowed f (langsOf e) = true) :
    process_message f e = some (enrich e) := by
  simp [process_message, enrich, h]

/-- An event rejected by the language filter is discarded. -/
theorem process_message_eq_none (f : List String) (e : Event)
    (h : is_language_allowed f (langsOf e) = false) :
    process_message f e = none := by
  simp [process_message, h]

/-- The empty allow-list lets every event through. -/
theorem is_language_allowed_nil (langs : List String) :
    is_language_allowed [] langs = true := rfl

/-- Handling a well-formed event with the empty allow-list, a live client
and a healthy sink writes the enriched document under its computed id. -/
theorem handle_message_nil_filter (e : Event) :
    handle_message [] true true (RawMessage.valid e) =
      Except.ok { written := [(docId e, enrich e)], sinkAttempts := 1,
                  errorLogs := 0, infoLogs := 1 } := by
  simp [handle_message, process_message_eq_some [] e (is_language_allowed_nil (langsOf e)),
    index_data, enrich]

/-- One queue operation preserves the capacity and the occupancy bound. -/
theorem IngestQueue.step_inv {α : Type} (q : IngestQueue α) (op : QOp α)
    (h : q.items.length ≤ q.capacity) :
    (q.step op).capacity = q.capacity ∧ (q.step op).items.length ≤ q.capacity := by
  cases op with
  | put x =>
      unfold IngestQueue.step IngestQueue.put
      by_cases hlt : q.items.length < q.capacity
      · simp [hlt]
        omega
      · simp [hlt, h]
  | get =>
      unfold IngestQueue.step IngestQueue.get
      cases hq : q.items with
      | nil => simp [h]
      | cons x xs =>
          simp
          have := h
          rw [hq] at this
          simp at this
          omega

/-- A run of queue operations preserves the capacity and occupancy bound. -/
theorem IngestQueue.run_inv {α : Type} (ops : List (QOp α)) (q : IngestQueue α)
    (h : q.items.length ≤ q.capacity) :
    (q.run ops).capacity = q.capacity ∧ (q.run ops).items.length ≤ q.capacity := by
  induction ops generalizing q with
  | nil => exact ⟨rfl, h⟩
  | cons op ops ih =>
      have hstep := IngestQueue.step_inv q op h
      have := ih (q.step op) (hstep.1 ▸ hstep.2)
      unfold IngestQueue.run at this ⊢
      simp only [List.foldl_cons]
      exact ⟨this.1.trans hstep.1, this.2.trans_eq hstep.1⟩

/-- After any number of cycles the endpoint index has advanced by the number
of cycles, modulo the pool size. -/
theorem run_trace_index (n : Nat) (outcomes : List (Option PyErr)) (s : RunState)
    (hs : s.current_url_index % n = s.current_url_index) :
    (run_trace n outcomes s).2.current_url_index =
      (s.current_url_index + outcomes.length) % n := by
  induction outcomes generalizing s with
  | nil => simpa [run_trace] using hs.symm
  | cons o os ih =>
      unfold run_trace run_cycle
      simp only [List.length_cons]
      rw [ih _ (Nat.mod_mod_of_dvd _ (dvd_refl n))]
      simp only []
      rw [Nat.mod_add_mod]
      ring_nf

/-! ## Claims -/

/-- C3: for every parsed event whose `langs` list is disjoint from a
non-empty configured language allow-list, `process_message` performs no sink
write and the event is silently discarded (no sink attempt, nothing logged);
and when the allow-list is empty, every well-formed event is written to the
sink (given a live client and a healthy store). -/
theorem C3_language_filter (f : List String) (e : Event) (es sinkOk : Bool)
    (hne : f ≠ []) (hdisj : ∀ l ∈ langsOf e, l ∉ f) :
    handle_message f es sinkOk (RawMessage.valid e) = Except.ok Effects.empty ∧
    handle_message [] true true (RawMessage.valid e) =
      Except.ok { written := [(docId e, enrich e)], sinkAttempts := 1,
                  errorLogs := 0, infoLogs := 1 } := by
  refine ⟨?_, handle_message_nil_filter e⟩
  have hfalse := is_language_allowed_false_of_disjoint f (langsOf e) hne hdisj
  simp [handle_message, process_message_eq_none f e hfalse]

/-- Witness for C3: allow-list `["en"]`, event with `langs = ["nl"]` is
discarded with no effects; with the empty allow-list it is written. -/
theorem C3_witness :
    (["en"] ≠ ([] : List String)) ∧ (∀ l ∈ langsOf evNl, l ∉ ["en"]) ∧
    handle_message ["en"] true true (RawMessage.valid evNl) = Except.ok Effects.empty ∧
    handle_message [] true true (RawMessage.valid evNl) =
      Except.ok { written := [(docId evNl, enrich evNl)], sinkAttempts := 1,
                  errorLogs := 0, infoLogs := 1 } :=
  ⟨by decide, by decide,
    (C3_language_filter ["en"] evNl true true (by decide) (by decide)).1,
    (C3_language_filter ["en"] evNl true true (by decide) (by decide)).2⟩

/-- C5: a malformed raw message (JSON decode failure) makes the worker log
exactly one error, perform no sink call and no write, and continue its loop
— malformed input never terminates a worker and never reaches the sink. -/
theorem C5_malformed_dropped (f : List String) (es sinkOk : Bool) :
    worker_step f es sinkOk (PollResult.item RawMessage.malformed) =
      (StepOutcome.continueLoop,
        { written := [], sinkAttempts := 0, errorLogs := 1, infoLogs := 0 }) := rfl

/-- C6: handling one message always leaves the worker loop running; at most
one sink call is attempted (no automatic retry); an exception escaping
`handle_message` is caught at the message boundary, logged as an error, and
produces no write; and a failing sink write produces no write. -/
theorem C6_worker_isolation (f : List String) (es sinkOk : Bool) (msg : RawMessage) :
    (worker_step f es sinkOk (PollResult.item msg)).1 = StepOutcome.continueLoop ∧
    (worker_step f es sinkOk (PollResult.item msg)).2.sinkAttempts ≤ 1 ∧
    (handle_message f es sinkOk msg = Except.error () →
      worker_step f es sinkOk (PollResult.item msg) =
        (StepOutcome.continueLoop,
          { written := [], sinkAttempts := 0, errorLogs := 1, infoLogs := 0 })) ∧
    (sinkOk = false → (worker_step f es sinkOk (PollResult.item msg)).2.written = []) := by
  cases msg with
  | malformed => simp [worker_step, handle_message]
  | illtyped => simp [worker_step, handle_message]
  | valid e =>
      cases hpm : process_message f e with
      | none => simp [worker_step, handle_message, hpm, Effects.empty]
      | some doc =>
          cases es <;> cases sinkOk <;>
            simp [worker_step, handle_message, hpm, index_data]

/-- Witness for C6: an ill-typed message raises, is caught and logged, and
the worker continues; with a failing sink a valid event produces no write. -/
theorem C6_witness :
    (handle_message [] true false RawMessage.illtyped = Except.error ()) ∧
    worker_step [] true false (PollResult.item RawMessage.illtyped) =
      (StepOutcome.continueLoop,
        { written := [], sinkAttempts := 0, errorLogs := 1, infoLogs := 0 }) ∧
    ((false : Bool) = false →
      (worker_step [] true false (PollResult.item (RawMessage.valid evEnFr))).2.written = []) :=
  ⟨rfl,
    (C6_worker_isolation [] true false RawMessage.illtyped).2.2.1 rfl,
    (C6_worker_isolation [] true false (RawMessage.valid evEnFr)).2.2.2⟩

/-- C7: every well-formed event that passes the language filter is forwarded
as the parsed event plus exactly the two derived fields: `post_url` equal to
`https://bsky.app/profile/<did>/post/<rkey>`, and `record_time` derived from
`time_us` when it is present and valid (non-zero and inside datetime's
representable range), else the current time — in particular an out-of-range
`time_us` falls back to the current time via the `ValueError` clause. -/
theorem C7_enrichment (f : List String) (e : Event)
    (h : is_language_allowed f (langsOf e) = true) :
    process_message f e =
      some { event := e,
             post_url := "https://bsky.app/profile/" ++ didOf e ++ "/post/" ++ rkeyOf e,
             record_time := get_timestamp e.time_us } ∧
    (∀ t : Int, t ≠ 0 → tsMinMicros ≤ t → t ≤ tsMaxMicros →
      get_timestamp (some t) = Timestamp.fromMicros t) ∧
    (∀ t : Int, t < tsMinMicros ∨ tsMaxMicros < t →
      get_timestamp (some t) = Timestamp.now) ∧
    get_timestamp none = Timestamp.now ∧ get_timestamp (some 0) = Timestamp.now := by
  refine ⟨process_message_eq_some f e h, ?_, ?_, rfl, rfl⟩
  · intro t ht h1 h2
    simp [get_timestamp, ht, h1, h2]
  · intro t ht
    unfold get_timestamp
    by_cases h0 : t = 0
    · simp [h0]
    · have h1 : ¬ (tsMinMicros ≤ t ∧ t ≤ tsMaxMicros) := by
        rcases ht with hlt | hgt
        · exact fun hc => absurd hc.1 (not_le.mpr hlt)
        · exact fun hc => absurd hc.2 (not_le.mpr hgt)
      simp [h0, h1]

/-- Witness for C7: the event with `did = "did:abc"`, `rkey = "xyz"`,
`langs = ["en", "fr"]` and `time_us = 5` passes the filter `["en"]` and is
enriched with the canonical URL of the spec's scenario; an out-of-range
`time_us = 2.6e17` (year 10209) yields the current time instead. -/
theorem C7_witness :
    is_language_allowed ["en"] (langsOf evEnFr) = true ∧
    process_message ["en"] evEnFr =
      some { event := evEnFr,
             post_url := "https://bsky.app/profile/did:abc/post/xyz",
             record_time := Timestamp.fromMicros 5 } ∧
    get_timestamp (some 260000000000000000) = Timestamp.now :=
  ⟨by decide, by
    have h := (C7_enrichment ["en"] evEnFr (by decide)).1
    exact h.trans (by decide),
    (C7_enrichment ["en"] evEnFr (by decide)).2.2.1 260000000000000000
      (Or.inr (by decide))⟩

/-- C10: an event whose record carries no `langs` field gets the empty list,
so any non-empty allow-list silently discards it (no write, no sink call, no
log); it is written only under the empty allow-list. -/
theorem C10_no_langs_discarded (f : List String) (e : Event) (es sinkOk : Bool)
    (h : (e.commit.bind Commit.record).bind Record.langs = none) :
    (f ≠ [] → handle_message f es sinkOk (RawMessage.valid e) = Except.ok Effects.empty) ∧
    handle_message [] true true (RawMessage.valid e) =
      Except.ok { written := [(docId e, enrich e)], sinkAttempts := 1,
                  errorLogs := 0, infoLogs := 1 } := by
  refine ⟨?_, handle_message_nil_filter e⟩
  intro hne
  have hlangs : langsOf e = [] := by simp [langsOf, h]
  have hfalse : is_language_allowed f (langsOf e) = false := by
    apply is_language_allowed_false_of_disjoint f _ hne
    rw [hlangs]
    intro l hl
    cases hl
  simp [handle_message, process_message_eq_none f e hfalse]

/-- Witness for C10: the sample event without a `langs` field is dropped
under allow-list `["en"]` and written under the empty allow-list. -/
theorem C10_witness :
    ((evNoLangs.commit.bind Commit.record).bind Record.langs = none) ∧
    handle_message ["en"] true true (RawMessage.valid evNoLangs) = Except.ok Effects.empty ∧
    handle_message [] true true (RawMessage.valid evNoLangs) =
      Except.ok { written := [(docId evNoLangs, enrich evNoLangs)], sinkAttempts := 1,
                  errorLogs := 0, infoLogs := 1 } :=
  ⟨by decide,
    (C10_no_langs_discarded ["en"] evNoLangs true true (by decide)).1 (by decide),
    (C10_no_langs_discarded ["en"] evNoLangs true true (by decide)).2⟩

/-- C1: the claimed exponential backoff does not happen.  Because
`connect_and_listen` catches every `Exception` internally, `run` sees a
normal return on every cycle and unconditionally resets `retry_delay` to 1,
so after three consecutive connection failures the base delays slept are
`[1, 1, 1]`, not the claimed `min(1 * 2^(k-1), 60) = [1, 2, 4]`. -/
theorem C1_backoff_code_bug :
    (run_trace numExternalUrls
        [some PyErr.connectionClosedError, some PyErr.connectionClosedError,
         some PyErr.connectionClosedError] initialRunState).1 = [1, 1, 1] ∧
    [1, 1, 1] ≠ [min (1 * 2 ^ 0) 60, min (1 * 2 ^ 1) 60, min (1 * 2 ^ 2) 60] := by
  decide

/-- C2 counterexample: two events with the identical (empty-string)
`commit.cid` receive different DocumentIDs, because `index_data` tests the
cid for Python truthiness, not presence: the empty string falls back to the
`did`/`time_us` composite, which differs between the two events. -/
theorem C2_counterexample :
    (evEmptyCidA.commit.bind Commit.cid = evEmptyCidB.commit.bind Commit.cid) ∧
    docId evEmptyCidA ≠ docId evEmptyCidB := by
  constructor
  · rfl
  · decide

/-- C2 (amended): two deliveries with the identical non-empty `commit.cid`
— or, when `cid` is absent or empty (Python-falsy), with identical `did` and
`time_us` — receive the identical DocumentID, so re-processing upserts the
same stored record. -/
theorem C2_docid_deterministic (d1 d2 : Event)
    (h : (∃ c, c ≠ "" ∧ d1.commit.bind Commit.cid = some c ∧
            d2.commit.bind Commit.cid = some c) ∨
         ((d1.commit.bind Commit.cid).getD "" = "" ∧
          (d2.commit.bind Commit.cid).getD "" = "" ∧
          d1.did = d2.did ∧ d1.time_us = d2.time_us)) :
    docId d1 = docId d2 := by
  rcases h with ⟨c, hc, h1, h2⟩ | ⟨h1, h2, hdid, htime⟩
  · simp [docId, h1, h2, hc]
  · simp [docId, h1, h2, hdid, htime]

/-- Witness for C2 (amended): two distinct events sharing `cid = "c1"` get
the same DocumentID `"c1"`. -/
theorem C2_witness :
    (∃ c, c ≠ "" ∧ evCid1A.commit.bind Commit.cid = some c ∧
       evCid1B.commit.bind Commit.cid = some c) ∧
    docId evCid1A = docId evCid1B :=
  ⟨⟨"c1", by decide, rfl, rfl⟩,
    C2_docid_deterministic evCid1A evCid1B (Or.inl ⟨"c1", by decide, rfl, rfl⟩)⟩

/-- C4: starting empty, the ingest queue of capacity 100000 never exceeds
its capacity under any sequence of puts and gets; a put on a full queue
suspends the producer, leaving the queue unchanged — the message is neither
dropped nor is an error raised. -/
theorem C4_queue_bounded (ops : List (QOp Nat)) (q : IngestQueue Nat) (x : Nat) :
    ((emptyQueue Nat queueCapacity).run ops).items.length ≤ queueCapacity ∧
    (q.items.length = q.capacity →
      q.put x = PutOutcome.suspended ∧ q.step (QOp.put x) = q) := by
  constructor
  · exact (IngestQueue.run_inv ops (emptyQueue Nat queueCapacity) (by simp [emptyQueue])).2
  · intro hfull
    have hput : q.put x = PutOutcome.suspended := by
      unfold IngestQueue.put
      simp [hfull]
    exact ⟨hput, by simp [IngestQueue.step, hput]⟩

/-- Witness for C4: a short run of puts and gets stays within capacity, and
a put on the full two-element queue suspends without changing it. -/
theorem C4_witness :
    ((emptyQueue Nat queueCapacity).run [QOp.put 1, QOp.put 2, QOp.get]).items.length ≤
      queueCapacity ∧
    qFull.items.length = qFull.capacity ∧
    qFull.put 9 = PutOutcome.suspended ∧ qFull.step (QOp.put 9) = qFull :=
  ⟨(C4_queue_bounded [QOp.put 1, QOp.put 2, QOp.get] qFull 9).1, by decide,
    ((C4_queue_bounded [QOp.put 1, QOp.put 2, QOp.get] qFull 9).2 (by decide)).1,
    ((C4_queue_bounded [QOp.put 1, QOp.put 2, QOp.get] qFull 9).2 (by decide)).2⟩

/-- C8: on every termination of a connect-and-listen cycle — success or
failure — the endpoint index advances by exactly one modulo the pool size,
and over any sequence of cycles it advances by the number of cycles modulo
the pool size, visiting the pool in order. -/
theorem C8_round_robin (n : Nat) (outcome : Option PyErr)
    (outcomes : List (Option PyErr)) (s : RunState)
    (_hn : 0 < n) (hs : s.current_url_index < n) :
    (run_cycle n outcome s).1.current_url_index = (s.current_url_index + 1) % n ∧
    (run_trace n outcomes s).2.current_url_index =
      (s.current_url_index + outcomes.length) % n := by
  refine ⟨rfl, ?_⟩
  exact run_trace_index n outcomes s (Nat.mod_eq_of_lt hs)

/-- Witness for C8: with the four-endpoint pool, one failing cycle advances
the index from 0 to 1, and five cycles of mixed outcomes land on index 1. -/
theorem C8_witness :
    0 < numExternalUrls ∧ initialRunState.current_url_index < numExternalUrls ∧
    (run_cycle numExternalUrls (some PyErr.connectionClosedError)
        initialRunState).1.current_url_index =
      (initialRunState.current_url_index + 1) % numExternalUrls ∧
    (run_trace numExternalUrls
        [none, some PyErr.connectionClosedError, some PyErr.invalidStatus,
         some PyErr.osError, none] initialRunState).2.current_url_index =
      (initialRunState.current_url_index +
        ([none, some PyErr.connectionClosedError, some PyErr.invalidStatus,
          some PyErr.osError, none] : List (Option PyErr)).length) % numExternalUrls :=
  ⟨by decide, by decide,
    (C8_round_robin numExternalUrls (some PyErr.connectionClosedError)
      [none, some PyErr.connectionClosedError, some PyErr.invalidStatus,
       some PyErr.osError, none] initialRunState (by decide) (by decide)).1,
    (C8_round_robin numExternalUrls (some PyErr.connectionClosedError)
      [none, some PyErr.connectionClosedError, some PyErr.invalidStatus,
       some PyErr.osError, none] initialRunState (by decide) (by decide)).2⟩

/-- C9: when `commit.cid` is absent or falsy the DocumentID is
`<did>_<time_us>` with absent fields rendered as the empty string; two
distinct events lacking both `cid` and `time_us` but sharing a `did` receive
the identical DocumentID, so the later upsert overwrites the earlier,
distinct event. -/
theorem C9_falsy_cid_collision (e e1 e2 : Event)
    (h : (e.commit.bind Commit.cid).getD "" = "")
    (h1 : (e1.commit.bind Commit.cid).getD "" = "")
    (h2 : (e2.commit.bind Commit.cid).getD "" = "")
    (ht1 : e1.time_us = none) (ht2 : e2.time_us = none) (hd : e1.did = e2.did)
    (store : String → Option EnrichedDoc) (doc1 doc2 : EnrichedDoc) :
    docId e = (e.did.getD "") ++ "_" ++ ((e.time_us.map toString).getD "") ∧
    docId e1 = docId e2 ∧
    upsertStore (upsertStore store (docId e1) doc1) (docId e2) doc2 (docId e1) =
      some doc2 := by
  have heq : docId e1 = docId e2 := by
    simp [docId, h1, h2, ht1, ht2, hd]
  refine ⟨by simp [docId, h], heq, ?_⟩
  simp [upsertStore, heq]

/-- Witness for C9: `evSameDid1` and `evSameDid2` are distinct events with
no `cid` and no `time_us` and the same `did`; both get DocumentID
`"did:carol_"`, and the second upsert overwrites the first. -/
theorem C9_witness :
    ((evSameDid1.commit.bind Commit.cid).getD "" = "") ∧
    ((evSameDid2.commit.bind Commit.cid).getD "" = "") ∧
    evSameDid1 ≠ evSameDid2 ∧
    docId evSameDid1 = (evSameDid1.did.getD "") ++ "_" ++
      ((evSameDid1.time_us.map toString).getD "") ∧
    docId evSameDid1 = docId evSameDid2 ∧
    upsertStore (upsertStore (fun _ => none) (docId evSameDid1) sampleDoc1)
        (docId evSameDid2) sampleDoc2 (docId evSameDid1) = some sampleDoc2 :=
  ⟨by decide, by decide, by decide,
    (C9_falsy_cid_collision evSameDid1 evSameDid1 evSameDid2 (by decide) (by decide)
      (by decide) rfl rfl rfl (fun _ => none) sampleDoc1 sampleDoc2).1,
    (C9_falsy_cid_collision evSameDid1 evSameDid1 evSameDid2 (by decide) (by decide)
      (by decide) rfl rfl rfl (fun _ => none) sampleDoc1 sampleDoc2).2.1,
    (C9_falsy_cid_collision evSameDid1 evSameDid1 evSameDid2 (by decide) (by decide)
      (by decide) rfl rfl rfl (fun _ => none) sampleDoc1 sampleDoc2).2.2⟩

end Bsky
